import Mathlib

/-!
# Verification of the `LinuxContainerBridge` sandbox layer

Shallow embedding of `src/main/claude/redaction.ts` (`LinuxContainerBridge`):
path validation against a workspace root, bridge lifecycle (`initialize` /
`shutdown`), file operations, container-argument construction with
environment-variable merging/filtering, and the `executeCommand`
spawn/timeout/close event handling.

The embedding models Node's `path` module on POSIX semantics (the bridge is
Linux-only), the filesystem as an explicit structure (`FS`) carrying the set of
existing paths, a symlink-resolution oracle (`realpathSync`) and file contents,
and the child process's behaviour as an externally given trace of events.
-/

namespace OpenCowork

/-- JS `String.prototype.startsWith`, expressed on the character lists
underlying Lean strings (extensionally the same as `String.startsWith`). -/
def strStartsWith (s pre : String) : Bool :=
  pre.data.isPrefixOf s.data

/-- ASCII whitespace, as trimmed by JS `String.prototype.trim` (the source only
ever produces ASCII whitespace at the trimmed ends). -/
def isWsChar (c : Char) : Bool :=
  c = ' ' || c = '\n' || c = '\t' || c = '\r'

/-- JS `String.prototype.trim`: drop whitespace from both ends. -/
def strTrim (s : String) : String :=
  String.mk (((s.data.dropWhile isWsChar).reverse.dropWhile isWsChar).reverse)

/-- Split a character list on `'/'` (the segment decomposition used by Node's
POSIX path normalization). -/
def splitOnSlash : List Char → List (List Char)
  | [] => [[]]
  | c :: rest =>
    let r := splitOnSlash rest
    if c = '/' then [] :: r
    else
      match r with
      | s :: ss => (c :: s) :: ss
      | [] => [[c]]

/-- One step of Node's path normalization for absolute paths: empty and `.`
segments are dropped, `..` pops the last segment (or is dropped at the root),
anything else is appended. -/
def normStack (stack : List (List Char)) (seg : List Char) : List (List Char) :=
  if seg = [] || seg = ['.'] then stack
  else if seg = ['.', '.'] then stack.dropLast
  else stack ++ [seg]

/-- Join segments with `'/'` separators. -/
def joinSegsChar : List (List Char) → List Char
  | [] => []
  | [s] => s
  | s :: rest => s ++ '/' :: joinSegsChar rest

/-- Node `path.normalize`/`path.resolve` lexical normalization of an absolute
POSIX path: collapse separators, resolve `.` and `..` segments; the result
never has a trailing slash (matching `path.resolve` output, which is the only
place the source applies normalization). -/
def normalizeAbs (p : String) : String :=
  let segs := (splitOnSlash p.data).foldl normStack []
  String.mk ('/' :: joinSegsChar segs)

/-- Node `path.resolve(p)` with the process working directory `cwd` (assumed
absolute, as `process.cwd()` always is): an absolute `p` is normalized as is, a
relative `p` is resolved against `cwd`. -/
def resolvePath (cwd p : String) : String :=
  if strStartsWith p "/" then normalizeAbs p
  else normalizeAbs (cwd ++ "/" ++ p)

/-- Node `path.dirname` for absolute paths (used for `mkdirSync(dirname(p))`
in `writeFile`/`copyFile`). -/
def dirname (p : String) : String :=
  normalizeAbs (p ++ "/..")

/-- Modelled from the spec: "within the workspace root" — the path is the root
itself, or lies strictly below it (the root followed by a `/` is a prefix).
Used only to compare the spec's containment notion with the code's check. -/
def withinRoot (root p : String) : Bool :=
  p == root || strStartsWith p (root ++ "/")

/-! ## Data model -/

/-- `type ContainerRuntime = 'podman' | 'docker'`. -/
inductive ContainerRuntime where
  | podman
  | docker
deriving DecidableEq, Repr

/-- `SandboxConfig`: workspace root path, optional timeout (ms; JS `||`
treats `0`/`undefined` alike), default environment overlay. -/
structure SandboxConfig where
  workspacePath : String
  timeout : Option Nat
  env : List (String × String)
deriving DecidableEq, Repr

/-- `ExecutionResult` as declared: `{ success, stdout, stderr, exitCode:
number|null }`. -/
structure ExecutionResult where
  success : Bool
  stdout : String
  stderr : String
  exitCode : Option Int
deriving DecidableEq, Repr

/-- Host filesystem model: which paths exist (`fs.existsSync`), the symlink
resolution oracle (`fs.realpathSync`), and file contents (`fs.readFileSync`). -/
structure FS where
  existing : List String
  realpath : String → String
  content : String → String

/-- `fs.existsSync`. -/
def FS.fsExists (fs : FS) (p : String) : Bool :=
  fs.existing.contains p

/-- `fs.unlinkSync`: remove the path from the set of existing paths. -/
def FS.unlink (fs : FS) (p : String) : FS :=
  { fs with existing := fs.existing.filter (fun q => q != p) }

/-- `fs.mkdirSync(p, { recursive: true })`, modelled as making `p` exist
(the model tracks full paths, not a directory tree). -/
def FS.mkdirp (fs : FS) (p : String) : FS :=
  if fs.fsExists p then fs else { fs with existing := p :: fs.existing }

/-- `fs.writeFileSync`: the path exists afterwards with the given content. -/
def FS.writeContent (fs : FS) (p : String) (data : String) : FS :=
  { fs with
    existing := if fs.fsExists p then fs.existing else p :: fs.existing
    content := fun q => if q = p then data else fs.content q }

/-- The default sandbox image (`DEFAULT_CONTAINER_IMAGE` with no
`OPEN_COWORK_LINUX_SANDBOX_IMAGE` override). -/
def DEFAULT_CONTAINER_IMAGE : String :=
  "docker.io/library/node:20-bookworm-slim"

/-- The mutable fields of a `LinuxContainerBridge` instance. -/
structure BridgeState where
  config : Option SandboxConfig
  workspacePath : String
  initialized : Bool
  runtime : Option ContainerRuntime
  image : String
deriving DecidableEq, Repr

/-- A freshly constructed bridge (the TS field initializers). -/
def BridgeState.fresh : BridgeState :=
  { config := none
    workspacePath := ""
    initialized := false
    runtime := none
    image := DEFAULT_CONTAINER_IMAGE }

/-- The fixed container-side mount point (`containerWorkspacePath`). -/
def containerWorkspacePath : String := "/workspace"

/-! ## Path validation -/

/-- `LinuxContainerBridge.validatePath`, with the ambient process working
directory `cwd` (the base of Node's single-argument `path.resolve`) and the
filesystem made explicit. -/
def validatePath (s : BridgeState) (cwd : String) (fs : FS)
    (targetPath : String) : Except String String :=
  if s.workspacePath = "" then
    .error "Bridge not initialized"
  else
    let resolved := resolvePath cwd targetPath
    let normalizedWorkspace := normalizeAbs s.workspacePath
    let normalizedTarget := normalizeAbs resolved
    if !strStartsWith normalizedTarget normalizedWorkspace then
      .error ("Path is outside workspace: " ++ resolved)
    else if fs.fsExists resolved then
      let realPath := fs.realpath resolved
      if !strStartsWith realPath normalizedWorkspace then
        .error ("Symlink escape detected: " ++ resolved ++ " -> " ++ realPath)
      else
        .ok resolved
    else
      .ok resolved

/-! ## Path translation and runtime arguments -/

/-- Node `path.relative(from, to)` on the segment level, for already-resolved
absolute paths: strip the common prefix; each remaining `from`-segment becomes
`..`, followed by the remaining `to`-segments. -/
def relSegs : List (List Char) → List (List Char) → List (List Char)
  | [], ts => ts
  | f :: fsegs, [] => (f :: fsegs).map (fun _ => ['.', '.'])
  | f :: fsegs, t :: tsegs =>
    if f = t then relSegs fsegs tsegs
    else (f :: fsegs).map (fun _ => ['.', '.']) ++ (t :: tsegs)

/-- Node `path.relative` for absolute POSIX paths. -/
def relPath (fromPath toPath : String) : String :=
  let fsegs := (splitOnSlash (normalizeAbs fromPath).data).filter (· ≠ [])
  let tsegs := (splitOnSlash (normalizeAbs toPath).data).filter (· ≠ [])
  String.mk (joinSegsChar (relSegs fsegs tsegs))

/-- `LinuxContainerBridge.toContainerPath`: translate a host path under the
workspace to its `/workspace`-relative container path
(`path.posix.join(containerWorkspacePath, rel)` is a normalized join). -/
def toContainerPath (s : BridgeState) (hostPath : String) : String :=
  let rel := relPath s.workspacePath hostPath
  if rel = "" || rel = "." then containerWorkspacePath
  else normalizeAbs (containerWorkspacePath ++ "/" ++ rel)

/-- The safe environment-variable name pattern `/^[A-Za-z_][A-Za-z0-9_]*$/`. -/
def safeEnvName (s : String) : Bool :=
  match s.data with
  | [] => false
  | c :: rest => (c.isAlpha || c = '_') && rest.all (fun d => d.isAlphanum || d = '_')

/-- JS object spread `{...a, ...b}` on association lists: `a`'s keys in order
with `b`'s values winning, then `b`'s new keys in order. -/
def mergeSpread (a b : List (String × String)) : List (String × String) :=
  (a.map (fun kv =>
    match b.lookup kv.1 with
    | some v => (kv.1, v)
    | none => kv)) ++
  b.filter (fun kv => (a.lookup kv.1).isNone)

/-- The environment forwarded into the container by `buildRuntimeArgs`:
`{...(this.config?.env || {}), ...(env || {}), WORKSPACE: containerWorkspacePath}`
with non-safe names skipped by the `--env` loop. -/
def mergedFilteredEnv (configEnv callEnv : List (String × String)) :
    List (String × String) :=
  (mergeSpread (mergeSpread configEnv callEnv)
      [("WORKSPACE", containerWorkspacePath)]).filter
    (fun kv => safeEnvName kv.1)

/-- `LinuxContainerBridge.buildRuntimeArgs`: the full argv after `podman`
or `docker`. `uidgid` models `process.getuid()/getgid()` (present on Linux). -/
def buildRuntimeArgs (s : BridgeState) (command cwd : String)
    (env : Option (List (String × String))) (uidgid : Option (Nat × Nat)) :
    Except String (List String) :=
  match s.runtime with
  | none => .error "Container runtime not initialized"
  | some rt =>
    let base : List String :=
      ["run", "--rm", "--network", "none", "--cap-drop", "ALL",
       "--security-opt", "no-new-privileges", "--pids-limit", "512",
       "--workdir", cwd,
       "--volume", s.workspacePath ++ ":" ++ containerWorkspacePath ++ ":rw"]
    let userArgs : List String :=
      match rt with
      | .podman => ["--userns", "keep-id"]
      | .docker =>
        match uidgid with
        | some (u, g) => ["--user", toString u ++ ":" ++ toString g]
        | none => []
    let cfgEnv := (s.config.map SandboxConfig.env).getD []
    let envArgs :=
      (mergedFilteredEnv cfgEnv (env.getD [])).foldl
        (fun acc kv => acc ++ ["--env", kv.1 ++ "=" ++ kv.2]) []
    .ok (base ++ userArgs ++ envArgs ++ [s.image, "/bin/bash", "-lc", command])

/-! ## Command execution -/

/-- `this.config?.timeout || 60000` (JS `||`: `undefined` and `0` both fall
through to the default). -/
def effectiveTimeout (config : Option SandboxConfig) : Nat :=
  match config with
  | none => 60000
  | some c =>
    match c.timeout with
    | none => 60000
    | some t => if t = 0 then 60000 else t

/-- The events the spawned child can deliver to the handlers installed by
`executeCommand`: stream data, the timeout timer firing, a spawn `error`, and
the final `close` with a possibly-null exit code. -/
inductive ChildEvent where
  | stdoutData (chunk : String)
  | stderrData (chunk : String)
  | timeout
  | errored (msg : String)
  | close (code : Option Int)
deriving DecidableEq, Repr

/-- The closure state of the `executeCommand` promise executor: the stdout and
stderr accumulators, the `timedOut` flag, whether `child.kill` was issued, and
the resolved value once `resolve` has been called. -/
structure ExecState where
  stdout : String
  stderr : String
  timedOut : Bool
  killed : Bool
  result : Option ExecutionResult
deriving DecidableEq, Repr

/-- The initial executor state. -/
def ExecState.init : ExecState :=
  { stdout := "", stderr := "", timedOut := false, killed := false, result := none }

/-- One event dispatch: the `data`, timer, `error` and `close` handlers of
`executeCommand`. Events arriving after the promise has resolved are ignored
(the promise resolves once and the timer is cleared). -/
def execStep (timeoutMs : Nat) (st : ExecState) (e : ChildEvent) : ExecState :=
  match st.result with
  | some _ => st
  | none =>
    match e with
    | .stdoutData d => { st with stdout := st.stdout ++ d }
    | .stderrData d => { st with stderr := st.stderr ++ d }
    | .timeout => { st with timedOut := true, killed := true }
    | .errored msg =>
      { st with result := some ⟨false, st.stdout,
          strTrim (st.stderr ++ "\n" ++ msg), some 1⟩ }
    | .close code =>
      if st.timedOut then
        { st with result := some ⟨false, st.stdout,
            strTrim (st.stderr ++ "\nCommand timed out after " ++
              toString timeoutMs ++ "ms"), some 124⟩ }
      else
        { st with result := some ⟨code == some 0, st.stdout, st.stderr,
            some (code.getD 1)⟩ }

/-- Run the executor over a whole event trace. -/
def runExec (timeoutMs : Nat) (events : List ChildEvent) : ExecState :=
  events.foldl (execStep timeoutMs) ExecState.init

/-- Stream-data events (the events a still-running child produces). -/
def isDataEvent : ChildEvent → Bool
  | .stdoutData _ => true
  | .stderrData _ => true
  | _ => false

/-- The stdout bytes carried by a trace, in order. -/
def outConcat : List ChildEvent → String
  | [] => ""
  | .stdoutData d :: rest => d ++ outConcat rest
  | _ :: rest => outConcat rest

/-- The stderr bytes carried by a trace, in order. -/
def errConcat : List ChildEvent → String
  | [] => ""
  | .stderrData d :: rest => d ++ errConcat rest
  | _ :: rest => errConcat rest

/-- `LinuxContainerBridge.executeCommand`: the not-initialized guard, cwd
validation/translation, argument construction, then the promise driven by the
child's event trace. Returns `none` inside `ok` if the trace never resolves
the promise. -/
def executeCommand (s : BridgeState) (procCwd : String) (fs : FS)
    (command : String) (cwd : Option String)
    (env : Option (List (String × String))) (uidgid : Option (Nat × Nat))
    (events : List ChildEvent) : Except String (Option ExecutionResult) :=
  if !s.initialized || s.runtime.isNone then
    .error "Linux container bridge not initialized"
  else do
    let hostCwd ← match cwd with
      | some c => validatePath s procCwd fs c
      | none => .ok s.workspacePath
    let containerCwd := toContainerPath s hostCwd
    let _ ← buildRuntimeArgs s command containerCwd env uidgid
    let timeoutMs := effectiveTimeout s.config
    .ok (runExec timeoutMs events).result

/-! ## File operations -/

/-- `readFile`: validate, then `fs.readFileSync` (error when missing). -/
def readFile (s : BridgeState) (cwd : String) (fs : FS) (filePath : String) :
    Except String String := do
  let validPath ← validatePath s cwd fs filePath
  if fs.fsExists validPath then .ok (fs.content validPath)
  else .error ("ENOENT: " ++ validPath)

/-- `writeFile`: validate, `mkdirSync(dirname, {recursive})`, write. -/
def writeFile (s : BridgeState) (cwd : String) (fs : FS) (filePath : String)
    (content : String) : Except String FS := do
  let validPath ← validatePath s cwd fs filePath
  .ok ((fs.mkdirp (dirname validPath)).writeContent validPath content)

/-- `listDirectory`: validate, then list the names of existing immediate
children of the directory. -/
def listDirectory (s : BridgeState) (cwd : String) (fs : FS)
    (dirPath : String) : Except String (List String) := do
  let validPath ← validatePath s cwd fs dirPath
  .ok (fs.existing.filterMap (fun q =>
    if strStartsWith q (validPath ++ "/") then
      let rest := q.data.drop (validPath.data.length + 1)
      if rest ≠ [] && !rest.contains '/' then some (String.mk rest) else none
    else none))

/-- `fileExists`: a `try`/`catch` around validation — any validation failure
is reported as `false`, never thrown. -/
def fileExists (s : BridgeState) (cwd : String) (fs : FS)
    (filePath : String) : Bool :=
  match validatePath s cwd fs filePath with
  | .error _ => false
  | .ok validPath => fs.fsExists validPath

/-- `deleteFile`: validate, unlink only when the path exists. -/
def deleteFile (s : BridgeState) (cwd : String) (fs : FS)
    (filePath : String) : Except String FS := do
  let validPath ← validatePath s cwd fs filePath
  if fs.fsExists validPath then .ok (fs.unlink validPath)
  else .ok fs

/-- `createDirectory`: validate, `mkdirSync(p, {recursive})`. -/
def createDirectory (s : BridgeState) (cwd : String) (fs : FS)
    (dirPath : String) : Except String FS := do
  let validPath ← validatePath s cwd fs dirPath
  .ok (fs.mkdirp validPath)

/-- `copyFile`: validate both ends, create the destination's parent, copy. -/
def copyFile (s : BridgeState) (cwd : String) (fs : FS)
    (src dest : String) : Except String FS := do
  let validSrc ← validatePath s cwd fs src
  let validDest ← validatePath s cwd fs dest
  .ok ((fs.mkdirp (dirname validDest)).writeContent validDest
    (fs.content validSrc))

/-! ## Lifecycle -/

/-- The host probe results `initialize` consumes: the platform check, the
detected runtime, its rootless mode, the status image and the outcome of
`ensureImage`. -/
structure InitEnv where
  isLinux : Bool
  statusRuntime : Option ContainerRuntime
  statusRootless : Bool
  statusImage : Option String
  imageReady : Bool
deriving DecidableEq, Repr

/-- `status.image || DEFAULT_CONTAINER_IMAGE` (JS `||`: `undefined` and the
empty string both fall through). -/
def imageOrDefault (statusImage : Option String) : String :=
  match statusImage with
  | none => DEFAULT_CONTAINER_IMAGE
  | some i => if i = "" then DEFAULT_CONTAINER_IMAGE else i

/-- `LinuxContainerBridge.initialize`. TS mutates `this` as it goes and throws
on failure, so the model returns the state as left by the call together with
the thrown error message, if any. -/
def initBridge (s : BridgeState) (config : SandboxConfig) (cwd : String)
    (fs : FS) (env : InitEnv) : BridgeState × Option String :=
  if !env.isLinux then
    (s, some "LinuxContainerBridge is only available on Linux")
  else
    let s := { s with
      config := some config
      workspacePath := resolvePath cwd config.workspacePath }
    if !fs.fsExists s.workspacePath then
      (s, some ("Workspace does not exist: " ++ s.workspacePath))
    else
      match env.statusRuntime with
      | none =>
        (s, some "No supported container runtime detected. Install Podman rootless or Docker rootless.")
      | some rt =>
        if !env.statusRootless then
          (s, some "Runtime is available but not running rootless. Configure rootless mode first.")
        else
          let s := { s with
            runtime := some rt
            image := imageOrDefault env.statusImage }
          if !env.imageReady then
            (s, some ("Failed to prepare sandbox image: " ++ s.image))
          else
            ({ s with initialized := true }, none)

/-- `LinuxContainerBridge.shutdown`: clears `initialized`, `config` and
`runtime` — and nothing else (`workspacePath` and `image` are kept). -/
def shutdown (s : BridgeState) : BridgeState :=
  { s with initialized := false, config := none, runtime := none }

/-! ## Concrete fixtures (used by witnesses and counterexamples) -/

/-- An empty filesystem with trivial symlink resolution. -/
def fsEmpty : FS := ⟨[], id, fun _ => ""⟩

/-- A filesystem where only the workspace root `/ws` exists. -/
def fsWsOnly : FS := ⟨["/ws"], id, fun _ => ""⟩

/-- A filesystem where `/ws` exists but is itself a symlink: its real path is
`/real`. -/
def fsLinkRoot : FS :=
  ⟨["/ws"], (fun p => if p = "/ws" then "/real" else p), fun _ => ""⟩

/-- A session config rooted at `/ws`, default timeout, empty env overlay. -/
def cfgWs : SandboxConfig := ⟨"/ws", none, []⟩

/-- A Linux host with rootless podman and the image present. -/
def envLinuxPodman : InitEnv :=
  ⟨true, some .podman, true, some DEFAULT_CONTAINER_IMAGE, true⟩

/-- A bridge successfully initialized on `cfgWs` over `fsWsOnly`. -/
def bridgeWs : BridgeState :=
  (initBridge BridgeState.fresh cfgWs "/cwd" fsWsOnly envLinuxPodman).1

/-- `bridgeWs` initialized via a symlinked root (`fsLinkRoot`): `initBridge`
only checks existence of the root, so this succeeds identically. -/
def bridgeWsLink : BridgeState :=
  (initBridge BridgeState.fresh cfgWs "/cwd" fsLinkRoot envLinuxPodman).1

/-! ## Helper lemmas -/

theorem strStartsWith_iff {s pre : String} :
    strStartsWith s pre = true ↔ pre.data <+: s.data := by
  simp [strStartsWith]

theorem strStartsWith_refl (s : String) : strStartsWith s s = true :=
  strStartsWith_iff.mpr (List.prefix_refl _)

theorem strStartsWith_append_left {a pre : String} (b : String)
    (h : strStartsWith a pre = true) : strStartsWith (a ++ b) pre = true := by
  apply strStartsWith_iff.mpr
  rw [String.data_append]
  exact (strStartsWith_iff.mp h).trans (List.prefix_append a.data b.data)

theorem withinRoot_imp_startsWith {root p : String}
    (h : withinRoot root p = true) : strStartsWith p root = true := by
  unfold withinRoot at h
  rcases Bool.or_eq_true_iff.mp h with h | h
  · have heq : p = root := by simpa using h
    subst heq
    exact strStartsWith_refl p
  · apply strStartsWith_iff.mpr
    have h2 := strStartsWith_iff.mp h
    rw [String.data_append] at h2
    exact (List.prefix_append root.data _).trans h2

theorem workspacePath_ne_empty_of_abs {ws : String}
    (h : strStartsWith ws "/" = true) : ws ≠ "" := by
  intro heq
  subst heq
  exact absurd h (by decide)

theorem foldl_data_events (t : Nat) (evs : List ChildEvent)
    (hdata : evs.all isDataEvent = true) : ∀ (st : ExecState),
    st.result = none →
    evs.foldl (execStep t) st =
      { st with stdout := st.stdout ++ outConcat evs,
                stderr := st.stderr ++ errConcat evs } := by
  induction evs with
  | nil =>
    intro st _
    simp [outConcat, errConcat]
  | cons e rest ih =>
    intro st hres
    simp only [List.all_cons, Bool.and_eq_true] at hdata
    obtain ⟨he, hrest⟩ := hdata
    cases e with
    | stdoutData d =>
      rw [List.foldl_cons,
        show execStep t st (.stdoutData d) = { st with stdout := st.stdout ++ d }
          from by simp [execStep, hres],
        ih hrest { st with stdout := st.stdout ++ d } hres]
      simp [outConcat, errConcat, String.append_assoc]
    | stderrData d =>
      rw [List.foldl_cons,
        show execStep t st (.stderrData d) = { st with stderr := st.stderr ++ d }
          from by simp [execStep, hres],
        ih hrest { st with stderr := st.stderr ++ d } hres]
      simp [outConcat, errConcat, String.append_assoc]
    | timeout => exact absurd he (by simp [isDataEvent])
    | errored m => exact absurd he (by simp [isDataEvent])
    | close c => exact absurd he (by simp [isDataEvent])

theorem executeCommand_run (s : BridgeState) (procCwd : String) (fs : FS)
    (command : String) (env : Option (List (String × String)))
    (uidgid : Option (Nat × Nat)) (events : List ChildEvent)
    (rt : ContainerRuntime)
    (hinit : s.initialized = true) (hrt : s.runtime = some rt) :
    executeCommand s procCwd fs command none env uidgid events =
      .ok (runExec (effectiveTimeout s.config) events).result := by
  unfold executeCommand
  rw [hinit, hrt]
  simp only [buildRuntimeArgs, hrt]
  rfl

theorem executeCommand_ok_result (s : BridgeState) (procCwd : String) (fs : FS)
    (command : String) (cwd : Option String)
    (env : Option (List (String × String))) (uidgid : Option (Nat × Nat))
    (events : List ChildEvent) (o : Option ExecutionResult)
    (h : executeCommand s procCwd fs command cwd env uidgid events = .ok o) :
    o = (runExec (effectiveTimeout s.config) events).result := by
  unfold executeCommand at h
  split at h
  · exact absurd h (by simp)
  · cases cwd with
    | none =>
      dsimp only at h
      simp only [Bind.bind, Except.bind] at h
      rcases hargs : buildRuntimeArgs s command
          (toContainerPath s s.workspacePath) env uidgid with e2 | args
      · rw [hargs] at h
        simp at h
      · rw [hargs] at h
        simp at h
        exact h.symm
    | some c =>
      dsimp only at h
      rcases hcwd : validatePath s procCwd fs c with e | hostCwd
      · rw [hcwd] at h
        simp [Bind.bind, Except.bind] at h
      · rw [hcwd] at h
        simp only [Bind.bind, Except.bind] at h
        rcases hargs : buildRuntimeArgs s command (toContainerPath s hostCwd)
            env uidgid with e2 | args
        · rw [hargs] at h
          simp at h
        · rw [hargs] at h
          simp at h
          exact h.symm

theorem execStep_preserves_exitCode (t : Nat) (st : ExecState) (e : ChildEvent)
    (h : ∀ r, st.result = some r → ∃ n : Int, r.exitCode = some n) :
    ∀ r, (execStep t st e).result = some r → ∃ n : Int, r.exitCode = some n := by
  intro r hr
  unfold execStep at hr
  cases hst : st.result with
  | some r0 =>
    rw [hst] at hr
    exact h r hr
  | none =>
    rw [hst] at hr
    cases e with
    | stdoutData d => simp [hst] at hr
    | stderrData d => simp [hst] at hr
    | timeout => simp [hst] at hr
    | errored m =>
      dsimp at hr
      injection hr with h2
      exact ⟨1, h2 ▸ rfl⟩
    | close code =>
      dsimp at hr
      split at hr
      · injection hr with h2
        exact ⟨124, h2 ▸ rfl⟩
      · injection hr with h2
        exact ⟨code.getD 1, h2 ▸ rfl⟩

theorem foldl_exitCode_some (t : Nat) (events : List ChildEvent) :
    ∀ st : ExecState,
      (∀ r, st.result = some r → ∃ n : Int, r.exitCode = some n) →
      ∀ r, (events.foldl (execStep t) st).result = some r →
        ∃ n : Int, r.exitCode = some n := by
  induction events with
  | nil =>
    intro st h
    exact h
  | cons e rest ih =>
    intro st h
    rw [List.foldl_cons]
    exact ih (execStep t st e) (execStep_preserves_exitCode t st e h)

theorem lookup_map_override (a b : List (String × String)) (k : String) :
    ((a.map fun kv =>
      match b.lookup kv.1 with
      | some v => (kv.1, v)
      | none => kv)).lookup k =
      (a.lookup k).map (fun v => (b.lookup k).getD v) := by
  induction a with
  | nil => simp
  | cons hd tl ih =>
    obtain ⟨k', v'⟩ := hd
    by_cases hk : k == k'
    · cases hb : b.lookup k' with
      | some w => simp [List.lookup_cons, hk, hb, eq_of_beq hk]
      | none => simp [List.lookup_cons, hk, hb, eq_of_beq hk]
    · cases hb : b.lookup k' <;>
        simp [List.lookup_cons, hk, hb, ih]

theorem lookup_filter_keydep (q : String × String → Bool) (p : String → Bool)
    (hq : ∀ kv : String × String, q kv = p kv.1)
    (b : List (String × String)) (k : String) :
    ((b.filter q).lookup k) = if p k then b.lookup k else none := by
  induction b with
  | nil => simp
  | cons hd tl ih =>
    obtain ⟨k', v'⟩ := hd
    rw [List.filter_cons]
    by_cases hp : p k'
    · rw [hq, if_pos (by simpa using hp)]
      by_cases hk : k == k'
      · simp [List.lookup_cons, hk, eq_of_beq hk, hp]
      · simp [List.lookup_cons, hk, ih]
    · rw [hq, if_neg (by simpa using hp)]
      by_cases hk : k == k'
      · have hpk : p k = false := by
          rw [eq_of_beq hk]
          simpa using hp
        simp [ih, hpk, List.lookup_cons]
      · simp [List.lookup_cons, hk, ih]

theorem lookup_mergeSpread (a b : List (String × String)) (k : String) :
    (mergeSpread a b).lookup k = (b.lookup k).or (a.lookup k) := by
  unfold mergeSpread
  rw [List.lookup_append, lookup_map_override,
    lookup_filter_keydep (fun kv => (a.lookup kv.1).isNone)
      (fun k0 => (a.lookup k0).isNone) (fun _ => rfl) b k]
  cases ha : a.lookup k <;> cases hb : b.lookup k <;> simp [ha, hb]

theorem mergedFilteredEnv_lookup (configEnv callEnv : List (String × String))
    (k : String) :
    (mergedFilteredEnv configEnv callEnv).lookup k =
      if safeEnvName k then
        (if k = "WORKSPACE" then some containerWorkspacePath
         else (callEnv.lookup k).or (configEnv.lookup k))
      else none := by
  unfold mergedFilteredEnv
  rw [lookup_filter_keydep (fun kv => safeEnvName kv.1) safeEnvName
    (fun _ => rfl), lookup_mergeSpread, lookup_mergeSpread]
  by_cases hW : k = "WORKSPACE"
  · subst hW
    simp [List.lookup_cons]
  · have hbeq : (k == "WORKSPACE") = false := by
      simp [hW]
    have hnone : (([("WORKSPACE", containerWorkspacePath)] :
        List (String × String)).lookup k) = none := by
      simp [List.lookup_cons, hbeq]
    simp [hnone, hW]

theorem unlink_not_exists (fs : FS) (q : String) :
    (fs.unlink q).fsExists q = false := by
  simp [FS.unlink, FS.fsExists]

theorem validatePath_ok_shape (s : BridgeState) (cwd : String) (fs : FS)
    (p r : String) (h : validatePath s cwd fs p = .ok r) :
    r = resolvePath cwd p ∧ s.workspacePath ≠ "" ∧
    strStartsWith (normalizeAbs (resolvePath cwd p))
      (normalizeAbs s.workspacePath) = true := by
  unfold validatePath at h
  dsimp only at h
  split_ifs at h with h1 h2 h3 h4
  · exact ⟨(Except.ok.inj h).symm, h1, by simpa using h2⟩
  · exact ⟨(Except.ok.inj h).symm, h1, by simpa using h2⟩

/-! ## Claim C1 -/

/-- C1 (amended): `validatePath` accepts a candidate exactly when the
normalized resolved path has the normalized workspace root as a *string
prefix* and, when the path exists on disk, its real path also has the root as
a string prefix; in particular every path genuinely within the root (the
spec-side `withinRoot`, both lexically and after symlink resolution) is
accepted and the normalized absolute path is returned. The check is a raw
`startsWith`, so it does not coincide with containment (see the
counterexample). -/
theorem validatePath_prefix_characterization
    (s : BridgeState) (cwd : String) (fs : FS) (p : String)
    (hws : s.workspacePath ≠ "") :
    (validatePath s cwd fs p = .ok (resolvePath cwd p) ↔
      (strStartsWith (normalizeAbs (resolvePath cwd p))
          (normalizeAbs s.workspacePath) = true ∧
        (fs.fsExists (resolvePath cwd p) = true →
          strStartsWith (fs.realpath (resolvePath cwd p))
            (normalizeAbs s.workspacePath) = true)))
    ∧
    ((withinRoot (normalizeAbs s.workspacePath)
          (normalizeAbs (resolvePath cwd p)) = true ∧
        (fs.fsExists (resolvePath cwd p) = true →
          withinRoot (normalizeAbs s.workspacePath)
            (fs.realpath (resolvePath cwd p)) = true)) →
      validatePath s cwd fs p = .ok (resolvePath cwd p)) := by
  have main : validatePath s cwd fs p = .ok (resolvePath cwd p) ↔
      (strStartsWith (normalizeAbs (resolvePath cwd p))
          (normalizeAbs s.workspacePath) = true ∧
        (fs.fsExists (resolvePath cwd p) = true →
          strStartsWith (fs.realpath (resolvePath cwd p))
            (normalizeAbs s.workspacePath) = true)) := by
    unfold validatePath
    rw [if_neg hws]
    dsimp only
    split_ifs with h1 h2 h3 <;> simp_all
  refine ⟨main, ?_⟩
  rintro ⟨hw1, hw2⟩
  exact main.mpr ⟨withinRoot_imp_startsWith hw1,
    fun hex => withinRoot_imp_startsWith (hw2 hex)⟩

/-- C1 counterexample: with workspace root `/ws`, the sibling path `/wsx`
resolves outside the workspace root (`withinRoot` is false), yet
`validatePath` accepts it, because `/wsx` has `/ws` as a string prefix. -/
theorem validatePath_sibling_escape_counterexample :
    bridgeWs.workspacePath = "/ws" ∧
    withinRoot "/ws" "/wsx" = false ∧
    validatePath bridgeWs "/cwd" fsEmpty "/wsx" = .ok "/wsx" :=
  ⟨rfl, rfl, rfl⟩

/-- C1 witness: the characterization applied at the in-root path `/ws/a`. -/
theorem validatePath_prefix_characterization_witness :
    bridgeWs.workspacePath ≠ "" ∧
    validatePath bridgeWs "/cwd" fsEmpty "/ws/a" = .ok "/ws/a" :=
  ⟨by decide, by
    have h := (validatePath_prefix_characterization bridgeWs "/cwd" fsEmpty
      "/ws/a" (by decide)).2 (by decide)
    simpa using h⟩

/-! ## Claim C2 -/

/-- C2 (amended): `validatePath` resolves a relative candidate against the
*process working directory* (the base of Node single-argument `path.resolve`),
not against the workspace root; validating a relative `p` agrees with
validating `workspaceRoot ++ "/" ++ p` only under the extra assumption that
the process working directory *is* the workspace root. -/
theorem validatePath_relative_uses_process_cwd
    (s : BridgeState) (cwd : String) (fs : FS) (p : String)
    (habs : strStartsWith s.workspacePath "/" = true)
    (hrel : strStartsWith p "/" = false)
    (hcwd : cwd = s.workspacePath) :
    validatePath s cwd fs p =
      validatePath s cwd fs (s.workspacePath ++ "/" ++ p) := by
  have h2 : strStartsWith (s.workspacePath ++ "/" ++ p) "/" = true :=
    strStartsWith_append_left p (strStartsWith_append_left "/" habs)
  have hres : resolvePath cwd p =
      resolvePath cwd (s.workspacePath ++ "/" ++ p) := by
    unfold resolvePath
    rw [if_neg (by simp [hrel]), if_pos h2, hcwd]
  unfold validatePath
  rw [hres]

/-- C2 counterexample: with workspace root `/ws` and process working
directory `/other`, the relative path `f` is resolved to `/other/f` and
rejected, while `/ws/f` (the root joined with `f`) validates — so validating
a relative path does not name the same file as validating the root-joined
path. -/
theorem validatePath_relative_cwd_counterexample :
    bridgeWs.workspacePath ++ "/" ++ "f" = "/ws/f" ∧
    validatePath bridgeWs "/other" fsEmpty "f" =
      .error "Path is outside workspace: /other/f" ∧
    validatePath bridgeWs "/other" fsEmpty "/ws/f" = .ok "/ws/f" :=
  ⟨rfl, rfl, rfl⟩

/-- C2 witness: with the process working directory equal to the root, the
amended equivalence applied at the relative path `a`. -/
theorem validatePath_relative_uses_process_cwd_witness :
    strStartsWith bridgeWs.workspacePath "/" = true ∧
    validatePath bridgeWs "/ws" fsEmpty "a" =
      validatePath bridgeWs "/ws" fsEmpty (bridgeWs.workspacePath ++ "/" ++ "a") :=
  ⟨by decide,
    validatePath_relative_uses_process_cwd bridgeWs "/ws" fsEmpty "a"
      (by decide) (by decide) (by decide)⟩

/-! ## Claim C3 -/

/-- C3: when the timeout timer fires before the child closes, the child is
killed (`killed = true` records `child.kill`), and `executeCommand` returns
(rather than throws) a result with `success = false`, `exitCode = 124`, the
stdout collected up to that point, and the collected stderr with the timeout
diagnostic appended. -/
theorem executeCommand_timeout_kills_and_reports_124
    (s : BridgeState) (procCwd : String) (fs : FS) (command : String)
    (env : Option (List (String × String))) (uidgid : Option (Nat × Nat))
    (rt : ContainerRuntime) (pre post : List ChildEvent) (code : Option Int)
    (hinit : s.initialized = true) (hrt : s.runtime = some rt)
    (hpre : pre.all isDataEvent = true) (hpost : post.all isDataEvent = true) :
    executeCommand s procCwd fs command none env uidgid
        (pre ++ ChildEvent.timeout :: post ++ [ChildEvent.close code]) =
      .ok (some ⟨false, outConcat pre ++ outConcat post,
        strTrim (errConcat pre ++ errConcat post ++
          "\nCommand timed out after " ++
          toString (effectiveTimeout s.config) ++ "ms"),
        some 124⟩) ∧
    (runExec (effectiveTimeout s.config)
        (pre ++ ChildEvent.timeout :: post ++ [ChildEvent.close code])).killed
      = true := by
  have hrun : runExec (effectiveTimeout s.config)
      (pre ++ ChildEvent.timeout :: post ++ [ChildEvent.close code]) =
      ⟨outConcat pre ++ outConcat post,
       errConcat pre ++ errConcat post, true, true,
       some ⟨false, outConcat pre ++ outConcat post,
         strTrim (errConcat pre ++ errConcat post ++
           "\nCommand timed out after " ++
           toString (effectiveTimeout s.config) ++ "ms"),
         some 124⟩⟩ := by
    have h1 : List.foldl (execStep (effectiveTimeout s.config))
        ExecState.init pre =
        ⟨outConcat pre, errConcat pre, false, false, none⟩ := by
      rw [foldl_data_events _ pre hpre ExecState.init rfl]
      simp [ExecState.init]
    have h3 : List.foldl (execStep (effectiveTimeout s.config))
        (⟨outConcat pre, errConcat pre, true, true, none⟩ : ExecState) post =
        ⟨outConcat pre ++ outConcat post,
         errConcat pre ++ errConcat post, true, true, none⟩ := by
      rw [foldl_data_events _ post hpost _ rfl]
    have h2 : List.foldl (execStep (effectiveTimeout s.config))
        (⟨outConcat pre, errConcat pre, false, false, none⟩ : ExecState)
        (ChildEvent.timeout :: post) =
        ⟨outConcat pre ++ outConcat post,
         errConcat pre ++ errConcat post, true, true, none⟩ := by
      rw [List.foldl_cons,
        show execStep (effectiveTimeout s.config)
          (⟨outConcat pre, errConcat pre, false, false, none⟩ : ExecState)
          ChildEvent.timeout =
          ⟨outConcat pre, errConcat pre, true, true, none⟩ from rfl,
        h3]
    unfold runExec
    rw [List.foldl_append, List.foldl_append, h1, h2]
    rfl
  rw [executeCommand_run s procCwd fs command env uidgid _ rt hinit hrt, hrun]
  exact ⟨rfl, rfl⟩

/-- C3 witness: a concrete timed-out run — one stdout chunk, then the timer,
then the close — yields exit code 124 with the collected stdout. -/
theorem executeCommand_timeout_witness :
    bridgeWs.initialized = true ∧
    executeCommand bridgeWs "/cwd" fsWsOnly "sleep 30" none none none
        [ChildEvent.stdoutData "a", ChildEvent.timeout, ChildEvent.close none] =
      .ok (some ⟨false, "a", "Command timed out after 60000ms", some 124⟩) :=
  ⟨rfl,
    (executeCommand_timeout_kills_and_reports_124 bridgeWs "/cwd" fsWsOnly
      "sleep 30" none none .podman [ChildEvent.stdoutData "a"] [] none
      rfl rfl rfl rfl).1⟩

/-! ## Claim C4 -/

/-- C4: a run that closes with exit code `n` without the timer having fired
returns `success = (n == 0)`, `exitCode = n`, and stdout/stderr exactly equal
to the concatenation of the bytes the command produced on each stream. -/
theorem executeCommand_normal_exit
    (s : BridgeState) (procCwd : String) (fs : FS) (command : String)
    (env : Option (List (String × String))) (uidgid : Option (Nat × Nat))
    (rt : ContainerRuntime) (datas : List ChildEvent) (n : Int)
    (hinit : s.initialized = true) (hrt : s.runtime = some rt)
    (hdata : datas.all isDataEvent = true) :
    executeCommand s procCwd fs command none env uidgid
        (datas ++ [ChildEvent.close (some n)]) =
      .ok (some ⟨n == 0, outConcat datas, errConcat datas, some n⟩) := by
  have h1 : List.foldl (execStep (effectiveTimeout s.config))
      ExecState.init datas =
      ⟨outConcat datas, errConcat datas, false, false, none⟩ := by
    rw [foldl_data_events _ datas hdata ExecState.init rfl]
    simp [ExecState.init]
  rw [executeCommand_run s procCwd fs command env uidgid _ rt hinit hrt]
  unfold runExec
  rw [List.foldl_append, h1]
  rfl

/-- C4 witness: the spec scenario — `echo sandbox-ok` writing
`"sandbox-ok\n"` and exiting 0 round-trips exactly. -/
theorem executeCommand_normal_exit_witness :
    bridgeWs.initialized = true ∧
    executeCommand bridgeWs "/cwd" fsWsOnly "echo sandbox-ok" none none none
        [ChildEvent.stdoutData "sandbox-ok\n", ChildEvent.close (some 0)] =
      .ok (some ⟨true, "sandbox-ok\n", "", some 0⟩) :=
  ⟨rfl,
    executeCommand_normal_exit bridgeWs "/cwd" fsWsOnly "echo sandbox-ok"
      none none .podman [ChildEvent.stdoutData "sandbox-ok\n"] 0 rfl rfl rfl⟩

/-! ## Claim C5 -/

/-- C5 (amended): `executeCommand` fails with the not-initialized error
whenever `initialized` is false — before `initBridge` and after `shutdown`
alike. The file operations throw the not-initialized error only while
`workspacePath` is empty (i.e. before the first initialization attempt), and
`fileExists` returns `false` rather than throwing; `shutdown` clears
`initialized` but *keeps* `workspacePath`, so after a shutdown the file
operations are not rejected (see the counterexample). -/
theorem notInitialized_guard_behaviour :
    (∀ (s : BridgeState) (procCwd : String) (fs : FS) (command : String)
        (cwd : Option String) (env : Option (List (String × String)))
        (uidgid : Option (Nat × Nat)) (events : List ChildEvent),
      s.initialized = false →
      executeCommand s procCwd fs command cwd env uidgid events =
        .error "Linux container bridge not initialized") ∧
    (∀ (s : BridgeState) (cwd : String) (fs : FS) (p q content : String),
      s.workspacePath = "" →
      readFile s cwd fs p = .error "Bridge not initialized" ∧
      writeFile s cwd fs p content = .error "Bridge not initialized" ∧
      listDirectory s cwd fs p = .error "Bridge not initialized" ∧
      deleteFile s cwd fs p = .error "Bridge not initialized" ∧
      createDirectory s cwd fs p = .error "Bridge not initialized" ∧
      copyFile s cwd fs p q = .error "Bridge not initialized" ∧
      fileExists s cwd fs p = false) ∧
    (∀ s : BridgeState, (shutdown s).initialized = false ∧
      (shutdown s).workspacePath = s.workspacePath) := by
  refine ⟨?_, ?_, ?_⟩
  · intro s procCwd fs command cwd env uidgid events h
    unfold executeCommand
    rw [h]
    rfl
  · intro s cwd fs p q content h
    have hv : ∀ x, validatePath s cwd fs x = .error "Bridge not initialized" := by
      intro x
      unfold validatePath
      rw [if_pos h]
    refine ⟨?_, ?_, ?_, ?_, ?_, ?_, ?_⟩ <;>
      simp [readFile, writeFile, listDirectory, deleteFile, createDirectory,
        copyFile, fileExists, hv, Bind.bind, Except.bind]
  · intro s
    exact ⟨rfl, rfl⟩

/-- C5 counterexample: after `shutdown`, the bridge is no longer initialized,
yet `deleteFile` on an in-workspace path succeeds instead of failing with a
not-initialized error, because `shutdown` does not clear `workspacePath`. -/
theorem shutdown_file_ops_not_rejected_counterexample :
    (shutdown bridgeWs).initialized = false ∧
    deleteFile (shutdown bridgeWs) "/cwd" fsEmpty "/ws/x" = .ok fsEmpty :=
  ⟨rfl, rfl⟩

/-- C5 witness: `executeCommand` on a shut-down bridge is rejected. -/
theorem notInitialized_guard_behaviour_witness :
    (shutdown bridgeWs).initialized = false ∧
    executeCommand (shutdown bridgeWs) "/cwd" fsEmpty "ls" none none none [] =
      .error "Linux container bridge not initialized" :=
  ⟨rfl, notInitialized_guard_behaviour.1 (shutdown bridgeWs) "/cwd" fsEmpty
    "ls" none none none [] rfl⟩

/-! ## Claim C6 -/

/-- C6 (amended): a failing `initBridge` (on Linux) leaves `initialized`
unchanged — so a fresh bridge stays un-ready — but it does *not* restore the
pre-call state: `config` and `workspacePath` keep the values assigned during
the failed call (they are mutated before any precondition is checked). -/
theorem initBridge_failure_retains_partial_state
    (s : BridgeState) (config : SandboxConfig) (cwd : String) (fs : FS)
    (env : InitEnv) (hlinux : env.isLinux = true) :
    ((initBridge s config cwd fs env).1.config = some config ∧
     (initBridge s config cwd fs env).1.workspacePath =
       resolvePath cwd config.workspacePath) ∧
    ((initBridge s config cwd fs env).2.isSome = true →
      (initBridge s config cwd fs env).1.initialized = s.initialized) := by
  obtain ⟨il, srt, srl, sim, sir⟩ := env
  simp only [InitEnv.isLinux] at hlinux
  subst hlinux
  unfold initBridge
  cases srt with
  | none =>
    refine ⟨⟨?_, ?_⟩, ?_⟩ <;> split_ifs <;> simp_all <;> split_ifs <;> simp_all
  | some rt =>
    refine ⟨⟨?_, ?_⟩, ?_⟩ <;> split_ifs <;> simp_all <;> split_ifs <;> simp_all

/-- C6 counterexample: initializing a fresh bridge against a missing
workspace fails, but the resulting state differs from the fresh pre-call
state (`config` and `workspacePath` were already set). -/
theorem initBridge_failure_state_change_counterexample :
    (initBridge BridgeState.fresh cfgWs "/cwd" fsEmpty envLinuxPodman).2.isSome
      = true ∧
    (initBridge BridgeState.fresh cfgWs "/cwd" fsEmpty envLinuxPodman).1 ≠
      BridgeState.fresh :=
  ⟨rfl, by decide⟩

/-- C6 witness: the retained-state facts at the concrete failing call. -/
theorem initBridge_failure_retains_partial_state_witness :
    envLinuxPodman.isLinux = true ∧
    (initBridge BridgeState.fresh cfgWs "/cwd" fsEmpty envLinuxPodman).1.config
      = some cfgWs :=
  ⟨rfl, (initBridge_failure_retains_partial_state BridgeState.fresh cfgWs
    "/cwd" fsEmpty envLinuxPodman rfl).1.1⟩

/-! ## Claim C7 -/

/-- C7 (amended): the environment forwarded by `buildRuntimeArgs` is the
call-site env merged over the config overlay with call-site values winning
and non-safe-identifier names dropped — *except* for `WORKSPACE`, which is
always forced to the container mount path, overriding even a call-site value;
and the full argv embeds exactly this filtered merged environment. -/
theorem env_merge_and_filter :
    (∀ (configEnv callEnv : List (String × String)) (k : String),
      k ≠ "WORKSPACE" →
      (mergedFilteredEnv configEnv callEnv).lookup k =
        if safeEnvName k then (callEnv.lookup k).or (configEnv.lookup k)
        else none) ∧
    (∀ configEnv callEnv : List (String × String),
      (mergedFilteredEnv configEnv callEnv).lookup "WORKSPACE" =
        some containerWorkspacePath) ∧
    (∀ (configEnv callEnv : List (String × String)) (k v : String),
      safeEnvName k = false → (k, v) ∉ mergedFilteredEnv configEnv callEnv) ∧
    (∀ (s : BridgeState) (command cwd : String)
        (env : Option (List (String × String))) (uidgid : Option (Nat × Nat))
        (rt : ContainerRuntime), s.runtime = some rt →
      buildRuntimeArgs s command cwd env uidgid = .ok
        (["run", "--rm", "--network", "none", "--cap-drop", "ALL",
          "--security-opt", "no-new-privileges", "--pids-limit", "512",
          "--workdir", cwd,
          "--volume",
          s.workspacePath ++ ":" ++ containerWorkspacePath ++ ":rw"] ++
         (match rt with
          | .podman => ["--userns", "keep-id"]
          | .docker =>
            match uidgid with
            | some (u, g) => ["--user", toString u ++ ":" ++ toString g]
            | none => []) ++
         (mergedFilteredEnv ((s.config.map SandboxConfig.env).getD [])
             (env.getD [])).foldl
           (fun acc kv => acc ++ ["--env", kv.1 ++ "=" ++ kv.2]) [] ++
         [s.image, "/bin/bash", "-lc", command])) := by
  refine ⟨?_, ?_, ?_, ?_⟩
  · intro configEnv callEnv k hk
    rw [mergedFilteredEnv_lookup, if_neg hk]
  · intro configEnv callEnv
    rw [mergedFilteredEnv_lookup]
    rfl
  · intro configEnv callEnv k v hk hmem
    have := (List.mem_filter.mp hmem).2
    simp [hk] at this
  · intro s command cwd env uidgid rt hrt
    unfold buildRuntimeArgs
    rw [hrt]

/-- C7 counterexample: `WORKSPACE` matches the safe-name pattern and is
supplied at the call site with value `evil`, yet the forwarded value is the
forced `/workspace` — the call-site value does not win for this variable. -/
theorem env_merge_workspace_counterexample :
    safeEnvName "WORKSPACE" = true ∧
    (([("WORKSPACE", "evil")] : List (String × String)).lookup "WORKSPACE" =
      some "evil") ∧
    (mergedFilteredEnv [] [("WORKSPACE", "evil")]).lookup "WORKSPACE" =
      some "/workspace" ∧
    ((buildRuntimeArgs bridgeWs "cmd" "/workspace"
        (some [("WORKSPACE", "evil")]) none).toOption.getD []).contains
      "WORKSPACE=/workspace" = true ∧
    ((buildRuntimeArgs bridgeWs "cmd" "/workspace"
        (some [("WORKSPACE", "evil")]) none).toOption.getD []).contains
      "WORKSPACE=evil" = false :=
  ⟨rfl, rfl, rfl, rfl, rfl⟩

/-- C7 witness: for the ordinary variable `PATH` the call-site value wins
over the config overlay, per the amended merge characterization. -/
theorem env_merge_and_filter_witness :
    ("PATH" : String) ≠ "WORKSPACE" ∧
    (mergedFilteredEnv [("PATH", "/usr/bin")] [("PATH", "/opt")]).lookup
        "PATH" =
      if safeEnvName "PATH" then
        (([("PATH", "/opt")] : List (String × String)).lookup "PATH").or
          (([("PATH", "/usr/bin")] : List (String × String)).lookup "PATH")
      else none :=
  ⟨by decide, env_merge_and_filter.1 [("PATH", "/usr/bin")] [("PATH", "/opt")]
    "PATH" (by decide)⟩

/-! ## Claim C8 -/

/-- C8 (amended): validating the workspace root itself succeeds provided
that, when the root exists on disk, its real path begins with the root (in
particular whenever the root path contains no symlinks); a root that is
itself reached through a symlink is rejected (see the counterexample). -/
theorem validateRoot_succeeds_unless_root_symlinked
    (s : BridgeState) (cwd : String) (fs : FS) (ws : String)
    (hws : s.workspacePath = ws)
    (habs : strStartsWith ws "/" = true)
    (hnorm : normalizeAbs ws = ws)
    (hreal : fs.fsExists ws = true →
      strStartsWith (fs.realpath ws) ws = true) :
    validatePath s cwd fs ws = .ok ws := by
  have hne : ws ≠ "" := workspacePath_ne_empty_of_abs habs
  have hres : resolvePath cwd ws = ws := by
    unfold resolvePath
    rw [if_pos habs, hnorm]
  unfold validatePath
  rw [hws, if_neg hne]
  dsimp only
  rw [hres, hnorm, strStartsWith_refl]
  cases hex : fs.fsExists ws with
  | false => simp [hex]
  | true => simp [hex, hreal hex]

/-- C8 counterexample: a bridge successfully initialized on a root `/ws`
whose real path is `/real` (the root is a symlink) rejects the root itself
with a symlink-escape error. -/
theorem validateRoot_symlinked_root_counterexample :
    bridgeWsLink.initialized = true ∧
    bridgeWsLink.workspacePath = "/ws" ∧
    (validatePath bridgeWsLink "/cwd" fsLinkRoot "/ws").isOk = false :=
  ⟨rfl, rfl, rfl⟩

/-- C8 witness: on a symlink-free root, validating the root succeeds. -/
theorem validateRoot_succeeds_witness :
    bridgeWs.workspacePath = "/ws" ∧
    validatePath bridgeWs "/cwd" fsWsOnly "/ws" = .ok "/ws" :=
  ⟨rfl, validateRoot_succeeds_unless_root_symlinked bridgeWs "/cwd" fsWsOnly
    "/ws" rfl (by decide) (by decide) (by decide)⟩

/-! ## Claim C9 -/

/-- C9: `deleteFile` on a valid in-workspace path that does not exist on disk
succeeds and leaves the filesystem unchanged, and `deleteFile` is idempotent:
a second call on the same path returns the state produced by the first. -/
theorem deleteFile_missing_noop_idempotent
    (s : BridgeState) (cwd : String) (fs fs2 : FS) (p : String) :
    (∀ r, validatePath s cwd fs p = .ok r → fs.fsExists r = false →
      deleteFile s cwd fs p = .ok fs) ∧
    (deleteFile s cwd fs p = .ok fs2 → deleteFile s cwd fs2 p = .ok fs2) := by
  constructor
  · intro r hv hex
    unfold deleteFile
    rw [hv]
    simp [Bind.bind, Except.bind, hex]
  · intro hd
    unfold deleteFile at hd ⊢
    rcases hv : validatePath s cwd fs p with e | r0
    · rw [hv] at hd
      simp [Bind.bind, Except.bind] at hd
    · rw [hv] at hd
      simp only [Bind.bind, Except.bind] at hd
      obtain ⟨hr, hne, hpre⟩ := validatePath_ok_shape s cwd fs p r0 hv
      by_cases hex : fs.fsExists r0 = true
      · rw [if_pos hex] at hd
        injection hd with h2
        subst h2
        have hv2 : validatePath s cwd (fs.unlink r0) p = .ok r0 := by
          unfold validatePath
          rw [if_neg hne]
          dsimp only
          rw [hr, hpre]
          simp [unlink_not_exists]
        rw [hv2]
        simp [Bind.bind, Except.bind, unlink_not_exists]
      · rw [if_neg hex] at hd
        injection hd with h2
        subst h2
        rw [hv]
        simp [Bind.bind, Except.bind, hex]

/-- C9 witness: deleting the nonexistent `/ws/x` over a workspace containing
only `/ws` succeeds and returns the filesystem unchanged. -/
theorem deleteFile_missing_noop_idempotent_witness :
    validatePath bridgeWs "/cwd" fsWsOnly "/ws/x" = .ok "/ws/x" ∧
    fsWsOnly.fsExists "/ws/x" = false ∧
    deleteFile bridgeWs "/cwd" fsWsOnly "/ws/x" = .ok fsWsOnly :=
  ⟨rfl, rfl,
    (deleteFile_missing_noop_idempotent bridgeWs "/cwd" fsWsOnly fsWsOnly
      "/ws/x").1 "/ws/x" rfl rfl⟩

/-! ## Claim C10 -/

/-- C10: every `ExecutionResult` an `executeCommand` call produces carries a
non-null `exitCode`, even though the declared shape allows `null`: 124 on the
timeout path, 1 when the spawn errors or the child closes with a null code,
and the child exit code otherwise (the last four conjuncts pin down each
resolution case of the event handler). -/
theorem executeCommand_exitCode_always_int :
    (∀ (s : BridgeState) (procCwd : String) (fs : FS) (command : String)
        (cwd : Option String) (env : Option (List (String × String)))
        (uidgid : Option (Nat × Nat)) (events : List ChildEvent)
        (r : ExecutionResult),
      executeCommand s procCwd fs command cwd env uidgid events =
        .ok (some r) → ∃ n : Int, r.exitCode = some n) ∧
    (∀ (t : Nat) (st : ExecState) (msg : String), st.result = none →
      (execStep t st (.errored msg)).result =
        some ⟨false, st.stdout, strTrim (st.stderr ++ "\n" ++ msg), some 1⟩) ∧
    (∀ (t : Nat) (st : ExecState), st.result = none → st.timedOut = false →
      (execStep t st (.close none)).result =
        some ⟨false, st.stdout, st.stderr, some 1⟩) ∧
    (∀ (t : Nat) (st : ExecState) (code : Option Int), st.result = none →
      st.timedOut = true →
      (execStep t st (.close code)).result =
        some ⟨false, st.stdout,
          strTrim (st.stderr ++ "\nCommand timed out after " ++
            toString t ++ "ms"), some 124⟩) ∧
    (∀ (t : Nat) (st : ExecState) (n : Int), st.result = none →
      st.timedOut = false →
      (execStep t st (.close (some n))).result =
        some ⟨n == 0, st.stdout, st.stderr, some n⟩) := by
  refine ⟨?_, ?_, ?_, ?_, ?_⟩
  · intro s procCwd fs command cwd env uidgid events r h
    have ho := executeCommand_ok_result s procCwd fs command cwd env uidgid
      events (some r) h
    unfold runExec at ho
    exact foldl_exitCode_some _ events ExecState.init
      (by intro r0 h0; simp [ExecState.init] at h0) r ho.symm
  · intro t st msg hres
    simp [execStep, hres]
  · intro t st hres ht
    simp [execStep, hres, ht]
  · intro t st code hres ht
    simp [execStep, hres, ht]
  · intro t st n hres ht
    simp [execStep, hres, ht]

/-- C10 witness: the non-null-exit-code fact applied at a concrete run that
closes with code 5. -/
theorem executeCommand_exitCode_always_int_witness :
    ∃ n : Int,
      (⟨false, "", "", some (5 : Int)⟩ : ExecutionResult).exitCode = some n :=
  executeCommand_exitCode_always_int.1 bridgeWs "/cwd" fsWsOnly "false"
    none none none [ChildEvent.close (some 5)] ⟨false, "", "", some 5⟩ rfl

end OpenCowork
